import Mathlib

/-!
Verification development for the Google Maps data-extractor backend
(`backend/scraper.py`, `backend/utils.py`, `backend/database.py`,
`backend/main.py`).

The Python code is shallowly embedded: pure text-processing helpers become
Lean functions over `String` / `List Char`, Python `float` values are
modelled exactly by rationals (`ℚ`), Python `None` / absent results become
`Option`, raised-and-caught exceptions become explicit `Option` / `Except`
branches, and the selenium driver is modelled as a record of the page
facts the code reads (element lookup outcome, element text, attributes,
current URL).  Python string builtins used by the code (`str.split` with a
separator, `str.split()` on whitespace, `str.strip`, `float(...)`) are
reimplemented below with Python's documented semantics.
-/

/-- Model of Python `str.strip()` (for the ASCII whitespace that occurs in
this code base): drop whitespace from both ends of the character list. -/
def trimChars (l : List Char) : List Char :=
  ((l.dropWhile Char.isWhitespace).reverse.dropWhile Char.isWhitespace).reverse

/-- `pyStrip s` models Python `s.strip()`. -/
def pyStrip (s : String) : String :=
  String.mk (trimChars s.data)

/-- Value of a list of decimal digit characters. -/
def digitsToNat (ds : List Char) : ℕ :=
  ds.foldl (fun n c => 10 * n + (c.toNat - 48)) 0

/-- Consume an optional leading sign; returns (isNegative, rest). -/
def readSign : List Char → Bool × List Char
  | '+' :: t => (false, t)
  | '-' :: t => (true, t)
  | l => (false, l)

/-- Fuel-driven worker for Python `str.split(sep)` with a non-empty
separator; the fuel is initialised to the length of the list, which
always suffices, so the fuel-exhausted fallback is never reached. -/
def pySplitSepAux (sep : List Char) : ℕ → List Char → List Char → List (List Char)
  | _, [], acc => [acc.reverse]
  | 0, l, acc => [acc.reverse ++ l]
  | fuel + 1, c :: cs, acc =>
    if sep.isPrefixOf (c :: cs) then
      acc.reverse :: pySplitSepAux sep fuel ((c :: cs).drop sep.length) []
    else
      pySplitSepAux sep fuel cs (c :: acc)

/-- Model of Python `str.split(sep)` for a non-empty separator `sep`:
keeps empty segments, and `"".split(sep) == [""]`. -/
def pySplitSep (l : List Char) (sep : List Char) : List (List Char) :=
  pySplitSepAux sep l.length l []

/-- Worker for Python `str.split()` (no argument): split on whitespace
runs and drop empty segments. -/
def pySplitWhiteAux : List Char → List Char → List (List Char)
  | [], acc => if acc.isEmpty then [] else [acc.reverse]
  | c :: cs, acc =>
    if c.isWhitespace then
      if acc.isEmpty then pySplitWhiteAux cs []
      else acc.reverse :: pySplitWhiteAux cs []
    else pySplitWhiteAux cs (c :: acc)

/-- Model of Python `s.split()`: whitespace-delimited tokens, empties
dropped, `"".split() == []`. -/
def pySplitWhite (s : String) : List String :=
  (pySplitWhiteAux s.data []).map String.mk

/-- Parsing core of Python `float(s)` for finite decimal literals:
optional surrounding whitespace, optional sign, digits with an optional
fraction part, optional decimal exponent.  The result is an exact pair
(numerator, positive power-of-ten denominator); `none` models the
`ValueError` that `float` raises on malformed input.  The non-finite
literals `inf`/`nan` and digit-group underscores accepted by CPython do
not occur in this program's data and are outside the model. -/
def pyFloatParts (s : String) : Option (ℤ × ℕ) :=
  let l := trimChars s.data
  let p := readSign l
  let ip := p.2.takeWhile Char.isDigit
  let l2 := p.2.dropWhile Char.isDigit
  let fr : List Char × List Char :=
    match l2 with
    | '.' :: t => (t.takeWhile Char.isDigit, t.dropWhile Char.isDigit)
    | _ => ([], l2)
  if ip.isEmpty && fr.1.isEmpty then none
  else
    let mag : ℕ := digitsToNat (ip ++ fr.1)
    let num : ℤ := if p.1 then -(mag : ℤ) else (mag : ℤ)
    match fr.2 with
    | [] => some (num, 10 ^ fr.1.length)
    | c :: t =>
      if c == 'e' || c == 'E' then
        let ep := readSign t
        let ed := ep.2.takeWhile Char.isDigit
        let t2 := ep.2.dropWhile Char.isDigit
        if ed.isEmpty || !t2.isEmpty then none
        else if ep.1 then some (num, 10 ^ (fr.1.length + digitsToNat ed))
        else some (num * 10 ^ digitsToNat ed, 10 ^ fr.1.length)
      else none

/-- Model of Python `float(s)` as an exact rational; `none` models a
raised `ValueError`. -/
def pyFloat? (s : String) : Option ℚ :=
  (pyFloatParts s).map fun p => (p.1 : ℚ) / (p.2 : ℚ)

/-- The separator the source splits categories on.  The Python source
file `backend/scraper.py` line 181 contains the two-character literal
`'Â·'` (bytes `c3 82 c2 b7`, i.e. U+00C2 followed by U+00B7) — a
mojibake encoding of the middle-dot glyph — and not the bare middle dot
`'·'` that appears in the Google Maps UI. -/
def catSeparator : String := "Â·"

/-- Text-level body of `GoogleMapsScraper._extract_categories`
(scraper.py lines 174-183): given the category element's text, evaluate
`[cat.strip() for cat in text.split('Â·')]`. -/
def extract_categories_text (text : String) : List String :=
  (pySplitSep text.data catSeparator.data).map fun cs => String.mk (trimChars cs)

/-- `GoogleMapsScraper._extract_coordinates` (scraper.py lines 216-232):
if `"@" in url`, evaluate `url.split("@")[1].split(",")[:2]` and parse
the two fields with `float`; every raised exception is caught and yields
the empty dict, modelled as `none` (the partially filled dict built
before an `IndexError`/`ValueError` is discarded by the handler). -/
def extract_coordinates (url : String) : Option (ℚ × ℚ) :=
  if url.data.contains '@' then
    match pySplitSep url.data ['@'] with
    | _ :: seg :: _ =>
      match (pySplitSep seg [',']).take 2 with
      | [a, b] =>
        match pyFloat? (String.mk a), pyFloat? (String.mk b) with
        | some la, some lo => some (la, lo)
        | _, _ => none
      | _ => none
    | _ => none
  else none

/-- `parse_rating` (utils.py lines 108-121):
`try: return float(rating_str.split()[0]) except: return 0.0`.
The `[0]` `IndexError` on empty input and the `float` `ValueError` are
both caught and yield `0.0`. -/
def parse_rating (s : String) : ℚ :=
  match pySplitWhite s with
  | [] => 0
  | t :: _ =>
    match pyFloat? t with
    | some x => x
    | none => 0

/-- `DatabaseManager._parse_rating` (database.py lines 268-273):
`float(str(rating_str).split()[0])` with the same blanket handler;
`str` applied to a string argument is the identity. -/
def db_parse_rating (s : String) : ℚ :=
  match pySplitWhite s with
  | [] => 0
  | t :: _ =>
    match pyFloat? t with
    | some x => x
    | none => 0

/-- A located DOM element: its rendered text and its attribute list.
`get_attribute` on a selenium element returns the attribute's value, or
Python `None` when the element has no such attribute; that lookup is
`Element.getAttr` below. -/
structure Element where
  text : String
  attrs : List (String × String)
deriving DecidableEq

/-- Selenium `element.get_attribute(name)`: `some` value when present,
`none` (Python `None`) when the element lacks the attribute. -/
def Element.getAttr (e : Element) (name : String) : Option String :=
  (e.attrs.find? fun p => p.1 == name).map fun p => p.2

/-- Outcome of `driver.find_element`: an element, or one of the raised
driver exceptions (`NoSuchElementException`, a stale reference, or any
other driver-level fault). -/
inductive FindOutcome where
  | found (e : Element)
  | notFound
  | stale
  | fault
deriving DecidableEq

/-- The page state read by the scraper: element lookup by CSS selector,
the current URL, and the hours table (the expand-hours control's
availability and the optional `th`/`td` texts of each `table tr` row). -/
structure Driver where
  find : String → FindOutcome
  current_url : String
  hoursButtonOk : Bool
  hoursRows : List (Option String × Option String)

/-- `GoogleMapsScraper._safe_extract_text` (scraper.py lines 158-164):
`element.text.strip()` on success, `""` when any exception is raised. -/
def safe_extract_text (d : Driver) (sel : String) : String :=
  match d.find sel with
  | FindOutcome.found e => pyStrip e.text
  | _ => ""

/-- `GoogleMapsScraper._safe_extract_attribute` (scraper.py lines
166-172): returns `element.get_attribute(attribute)` unchanged on a
successful lookup — which is Python `None` (`none` here) when the
element lacks the attribute — and `""` when any exception is raised. -/
def safe_extract_attribute (d : Driver) (sel attr : String) : Option String :=
  match d.find sel with
  | FindOutcome.found e => e.getAttr attr
  | _ => some ""

/-- `GoogleMapsScraper._extract_categories` (scraper.py lines 174-183):
locate the category button and split its text; any exception (element
not found) yields `[]`. -/
def extract_categories (d : Driver) : List String :=
  match d.find "button[jsaction=\x27pane.rating.category\x27]" with
  | FindOutcome.found e => extract_categories_text e.text
  | _ => []

/-- `GoogleMapsScraper._extract_hours` (scraper.py lines 185-214): click
the expand control, then read each table row's `th`/`td` texts, skipping
rows whose cells are unreadable; failure to expand yields the empty
mapping. -/
def extract_hours (d : Driver) : List (String × String) :=
  if d.hoursButtonOk then
    d.hoursRows.foldr
      (fun r acc =>
        match r with
        | (some day, some tr) => (pyStrip day, pyStrip tr) :: acc
        | _ => acc)
      []
  else []

/-- The business-detail dict assembled by
`GoogleMapsScraper._extract_business_details` (scraper.py lines
140-150). -/
structure BusinessInfo where
  name : String
  address : String
  phone : String
  website : Option String
  rating : String
  reviews_count : String
  categories : List String
  hours : List (String × String)
  coordinates : Option (ℚ × ℚ)
deriving DecidableEq

/-- `GoogleMapsScraper._extract_business_details` (scraper.py lines
131-156): wait for the headline marker; if that wait raises (the panel
never loads, `panelLoads = false`) the handler returns the empty dict,
modelled as `none`; otherwise assemble the dict from the defensive
field extractors, none of which can raise. -/
def extract_business_details (d : Driver) (panelLoads : Bool) : Option BusinessInfo :=
  if panelLoads then
    some
      { name := safe_extract_text d "div.fontHeadlineSmall"
        address := safe_extract_text d "button[data-item-id=\x27address\x27]"
        phone := safe_extract_text d "button[data-item-id=\x27phone:tel\x27]"
        website := safe_extract_attribute d "a[data-item-id=\x27authority\x27]" "href"
        rating := safe_extract_text d "span.fontDisplayLarge"
        reviews_count := safe_extract_text d "button[jsaction=\x27pane.rating.moreReviews\x27]"
        categories := extract_categories d
        hours := extract_hours d
        coordinates := extract_coordinates d.current_url }
  else none

/-- One discovered listing as the iteration loop sees it: whether
`listing.click()` succeeds, whether the detail panel's headline marker
then appears, and the panel page state. -/
structure ListingEnv where
  clickOk : Bool
  panelLoads : Bool
  page : Driver

/-- One iteration of the listing loop (scraper.py lines 100-118): a
failing click raises and the `except` clause skips the listing
(`none`); otherwise the extraction result — possibly the empty dict —
is appended (`some r`). -/
def process_listing (l : ListingEnv) : Option (Option BusinessInfo) :=
  if l.clickOk then some (extract_business_details l.page l.panelLoads) else none

/-- The listing loop of `scrape_google_maps_sync` (scraper.py lines
100-118), carrying the accumulated `results` list and the
`(completed, total)` progress ticks published after each append. -/
def iterate_go (m : ℕ) :
    List ListingEnv → List (Option BusinessInfo) → List (ℕ × ℕ) →
    List (Option BusinessInfo) × List (ℕ × ℕ)
  | [], res, ticks => (res, ticks)
  | l :: rest, res, ticks =>
    match process_listing l with
    | some r => iterate_go m rest (res ++ [r]) (ticks ++ [(res.length + 1, m)])
    | none => iterate_go m rest res ticks

/-- The iterating phase: `for idx, listing in enumerate(listings[:max_results])`. -/
def iterate_phase (ls : List ListingEnv) (m : ℕ) :
    List (Option BusinessInfo) × List (ℕ × ℕ) :=
  iterate_go m (ls.take m) [] []

/-- The scroll loop of `scrape_google_maps_sync` (scraper.py lines
66-95): `scrolls_needed = max_results // 20` iterations; a failing
iteration (`env` false) is caught and publishes nothing; a successful
one publishes `(len(results), max_results)` — `r` is the length of the
`results` list, which is still empty at this point of the source — and
then breaks if `len(results) >= max_results`. -/
def scroll_phase (env : ℕ → Bool) : ℕ → ℕ → ℕ → List (ℕ × ℕ)
  | 0, _, _ => []
  | n + 1, r, m =>
    if env n then
      (r, m) :: (if m ≤ r then [] else scroll_phase env n r m)
    else scroll_phase env n r m

/-- The environment of one engine run: the structural search-phase fault
if any (scraper.py lines 52-64; a raise there escapes to the caller with
its message), per-scroll-iteration success, and the listings the feed
holds when line 98 runs. -/
structure Engine where
  searchFault : Option String
  scrollOk : ℕ → Bool
  listings : List ListingEnv

/-- `GoogleMapsScraper.scrape_google_maps_sync` (scraper.py lines
44-129): on a structural fault the exception is re-raised to the caller;
otherwise the scroll phase runs on the still-empty `results` list, then
the listing loop, and the function returns the accumulated records.  The
returned tick list is every `progress_callback` invocation in order. -/
def scrape_sync (e : Engine) (m : ℕ) :
    Except String (List (Option BusinessInfo) × List (ℕ × ℕ)) :=
  match e.searchFault with
  | some msg => Except.error msg
  | none =>
    let sticks := scroll_phase e.scrollOk (m / 20) 0 m
    let p := iterate_phase e.listings m
    Except.ok (p.1, sticks ++ p.2)

/-- `ScrapeSession` (main.py lines 49-61). -/
structure Session where
  session_id : String
  keywords : String
  location : String
  max_results : ℤ
  status : String
  completed : ℕ
  total : ℕ
  results : List (Option BusinessInfo)
  error_message : Option String

/-- A fresh session as built by the `ScrapeSession` constructor. -/
def mkSession (id keywords location : String) (m : ℤ) : Session :=
  { session_id := id
    keywords := keywords
    location := location
    max_results := m
    status := "idle"
    completed := 0
    total := m.toNat
    results := []
    error_message := none }

/-- The `progress_callback` closure of `run_scraping_task` (main.py
lines 72-74) applied to each published tick in order: each tick
overwrites `session.completed` and `session.total`. -/
def apply_ticks (s : Session) (ticks : List (ℕ × ℕ)) : Session :=
  ticks.foldl (fun s t => { s with completed := t.1, total := t.2 }) s

/-- `run_scraping_task` (main.py lines 63-97): set status `"running"`,
run the engine; on success store the results and set `"completed"`; on
an escaped exception set `"error"` with the captured message.  The only
status writes in the source are lines 66, 90 and 94. -/
def run_task (e : Engine) (s : Session) : Session :=
  let s1 := { s with status := "running" }
  match scrape_sync e s1.max_results.toNat with
  | Except.ok p => { apply_ticks s1 p.2 with results := p.1, status := "completed" }
  | Except.error msg => { s1 with status := "error", error_message := some msg }

/-- Final status of a run for a given engine environment and cap. -/
def finalStatus (e : Engine) (m : ℕ) : String :=
  match scrape_sync e m with
  | Except.ok _ => "completed"
  | Except.error _ => "error"

/-- Statuses a session bound to engine `e` goes through: `"idle"` at
creation (main.py line 55), `"running"` at line 66, then the terminal
status from line 90 or 94. -/
def runStatusTrace (e : Engine) (m : ℕ) : List String :=
  ["idle", "running", finalStatus e m]

/-- Order of the status state machine. -/
def statusRank (s : String) : ℕ :=
  if s = "idle" then 0 else if s = "running" then 1 else 2

/-- Terminal statuses. -/
def isTerminalStatus (s : String) : Prop :=
  s = "completed" ∨ s = "error"

/-- Lookup in the in-memory `scraping_sessions` registry (main.py line
42), modelled as an association list. -/
def lookupSession (store : List (String × Session)) (sid : String) : Option Session :=
  (store.find? fun p => p.1 == sid).map fun p => p.2

/-- The `start_scraping` endpoint wraps its whole body in
`try/except Exception` and re-raises anything caught — including the
validation `HTTPException(400, detail)` it itself raised — as
`HTTPException(500, str(e))`, where Starlette renders `str` of an
`HTTPException` as `"<code>: <detail>"`. -/
def httpWrap (code : ℕ) (detail : String) : ℕ × String :=
  (500, toString code ++ ": " ++ detail)

/-- `start_scraping` (main.py lines 104-126): validate, then allocate an
`idle` session, store it, schedule the background task and answer with
the fresh id at once.  The response is computed without consulting any
engine, so it never waits on scraping. -/
def start_scraping (store : List (String × Session)) (keywords location : String)
    (m : ℤ) (newId : String) :
    List (String × Session) × Except (ℕ × String) (String × String) :=
  if keywords = "" ∨ location = "" then
    (store, Except.error (httpWrap 400 "Keywords and location are required"))
  else if m ≤ 0 ∨ 500 < m then
    (store, Except.error (httpWrap 400 "Max results must be between 1 and 500"))
  else
    ((newId, mkSession newId keywords location m) :: store,
      Except.ok (newId, "started"))

/-- `get_results` (main.py lines 147-164): 404 for an unknown id, 400
while not completed, otherwise the result payload
`(session_id, keywords, location, total_results, results)`. -/
def get_results (store : List (String × Session)) (sid : String) :
    Except (ℕ × String) (String × String × String × ℕ × List (Option BusinessInfo)) :=
  match lookupSession store sid with
  | none => Except.error (404, "Session not found")
  | some s =>
    if s.status ≠ "completed" then Except.error (400, "Scraping not completed yet")
    else Except.ok (sid, s.keywords, s.location, s.results.length, s.results)

/-- `download_csv` (main.py lines 166-187): 404 unknown, 400 not
completed, 400 `"No results to download"` on an empty record list, else
a `FileResponse` whose download filename is
`google_maps_data_{keywords}_{location}.csv` (the CSV serialisation
itself is file-system work outside the model). -/
def download_csv (store : List (String × Session)) (sid : String) :
    Except (ℕ × String) String :=
  match lookupSession store sid with
  | none => Except.error (404, "Session not found")
  | some s =>
    if s.status ≠ "completed" then Except.error (400, "Scraping not completed yet")
    else if s.results = [] then Except.error (400, "No results to download")
    else Except.ok ("google_maps_data_" ++ s.keywords ++ "_" ++ s.location ++ ".csv")

/-- `download_json` (main.py lines 189-224): the same gating, answering
with the JSON download filename. -/
def download_json (store : List (String × Session)) (sid : String) :
    Except (ℕ × String) String :=
  match lookupSession store sid with
  | none => Except.error (404, "Session not found")
  | some s =>
    if s.status ≠ "completed" then Except.error (400, "Scraping not completed yet")
    else if s.results = [] then Except.error (400, "No results to download")
    else Except.ok ("google_maps_data_" ++ s.keywords ++ "_" ++ s.location ++ ".json")

/-- A page on which every lookup raises `NoSuchElementException`. -/
def trivialDriver : Driver :=
  { find := fun _ => FindOutcome.notFound
    current_url := ""
    hoursButtonOk := false
    hoursRows := [] }

/-- A listing whose click succeeds and whose panel loads. -/
def okListing : ListingEnv :=
  { clickOk := true, panelLoads := true, page := trivialDriver }

/-- A listing whose click succeeds but whose panel extraction raises. -/
def failListing : ListingEnv :=
  { clickOk := true, panelLoads := false, page := trivialDriver }

/-- Ten discovered listings of which the third and the seventh raise
during extraction. -/
def scenarioListings : List ListingEnv :=
  [okListing, okListing, failListing, okListing, okListing,
   okListing, failListing, okListing, okListing, okListing]

/-- The simulated engine of the 2-of-10 scenario. -/
def scenarioEngine : Engine :=
  { searchFault := none, scrollOk := fun _ => true, listings := scenarioListings }

/-- The session produced by running the 2-of-10 scenario with cap 10. -/
def scenarioResult : Session :=
  run_task scenarioEngine (mkSession "sid" "cafe" "springfield" 10)

/-- A concrete element carrying an `href` attribute only. -/
def cxElement : Element :=
  { text := "Website", attrs := [("href", "https://example.com")] }

/-- A page holding `cxElement` at selector `"a"` and nothing else. -/
def cxDriver : Driver :=
  { find := fun sel => if sel == "a" then FindOutcome.found cxElement else FindOutcome.notFound
    current_url := ""
    hoursButtonOk := false
    hoursRows := [] }

/-- A completed session with an empty record collection. -/
def emptyDoneSession : Session :=
  { mkSession "e1" "cafe" "rome" 5 with status := "completed" }

/-- A completed session holding one (empty) record. -/
def oneRecSession : Session :=
  { mkSession "e2" "cafe" "rome" 5 with status := "completed", results := [none] }

/-- A well-formed detail-page URL with embedded coordinates. -/
def wellUrl : String := "https://www.google.com/maps/place/X/@37.422,-122.084,15z"

/-- A session that is still idle (never run). -/
def idleSession : Session := mkSession "i1" "cafe" "rome" 5

/-- The registry used by the endpoint witnesses. -/
def testStore3 : List (String × Session) :=
  [("e1", emptyDoneSession), ("e2", oneRecSession), ("i1", idleSession)]

/-- Python `s.split(sep)` never returns the empty list: the worker
produces a singleton in both base cases and otherwise prepends or
recurses. -/
theorem pySplitSepAux_ne_nil (sep : List Char) :
    ∀ fuel l acc, pySplitSepAux sep fuel l acc ≠ [] := by
  intro fuel
  induction fuel with
  | zero => intro l acc; cases l <;> simp [pySplitSepAux]
  | succ n ih =>
    intro l acc
    cases l with
    | nil => simp [pySplitSepAux]
    | cons c cs =>
      simp only [pySplitSepAux]
      split
      · simp
      · exact ih cs (c :: acc)

/-- Every tick the scroll loop publishes is `(r, m)` for the record
count `r` the loop was entered with: the loop body never changes `r`. -/
theorem scroll_phase_mem (env : ℕ → Bool) :
    ∀ n r m t, t ∈ scroll_phase env n r m → t = (r, m) := by
  intro n
  induction n with
  | zero => intro r m t h; simp [scroll_phase] at h
  | succ k ih =>
    intro r m t h
    simp only [scroll_phase] at h
    split at h
    · rcases List.mem_cons.mp h with h1 | h2
      · exact h1
      · split at h2
        · simp at h2
        · exact ih r m t h2
    · exact ih r m t h

/-- The scroll loop runs at most its derived budget of iterations. -/
theorem scroll_phase_len (env : ℕ → Bool) :
    ∀ n r m, (scroll_phase env n r m).length ≤ n := by
  intro n
  induction n with
  | zero => intro r m; simp [scroll_phase]
  | succ k ih =>
    intro r m
    simp only [scroll_phase]
    split
    · split
      · simp
      · simpa using Nat.succ_le_succ (ih r m)
    · exact Nat.le_succ_of_le (ih r m)

/-- When every click succeeds, the listing loop appends exactly one
record per listing — the extraction result, empty or not — and publishes
the running record count after each append. -/
theorem iterate_go_all_click (m : ℕ) :
    ∀ (ls : List ListingEnv) (res : List (Option BusinessInfo)) (ticks : List (ℕ × ℕ)),
      (∀ l ∈ ls, l.clickOk = true) →
      iterate_go m ls res ticks =
        (res ++ ls.map (fun l => extract_business_details l.page l.panelLoads),
          ticks ++ (List.range ls.length).map (fun i => (res.length + i + 1, m))) := by
  intro ls
  induction ls with
  | nil => intro res ticks _; simp [iterate_go]
  | cons l rest ih =>
    intro res ticks h
    have hl : l.clickOk = true := h l (List.mem_cons_self l rest)
    have hrest : ∀ x ∈ rest, x.clickOk = true := fun x hx => h x (List.mem_cons_of_mem l hx)
    simp only [iterate_go, process_listing, hl, if_true]
    rw [ih (res ++ [extract_business_details l.page l.panelLoads])
        (ticks ++ [(res.length + 1, m)]) hrest]
    simp [List.range_succ_eq_map, List.map_map, Function.comp]
    intro a _
    omega

/-- Claim C1 (counterexample): `_extract_categories` applied to the
empty string does not return the empty list, and applied to
`"Cafe · Bakery · Coffee shop"` — whose separators are the UI's
middle-dot glyph — it does not return `["Cafe","Bakery","Coffee shop"]`,
because the source splits on the mojibake two-character sequence `"Â·"`,
which the input does not contain. -/
theorem extract_categories_claim_cx :
    extract_categories_text "" ≠ [] ∧
    extract_categories_text "Cafe · Bakery · Coffee shop" ≠
      ["Cafe", "Bakery", "Coffee shop"] := by
  constructor <;> decide

/-- Claim C1 (amended): the category parser splits on the literal
two-character sequence `"Â·"` (a mojibake of the UI's middle-dot
separator), trims each segment, and keeps empty segments; the empty
string yields `[""]`, text separated by the true glyph `"·"` comes back
as a single untouched segment, text separated by the mojibake sequence
is split and trimmed, and the result is never the empty list. -/
theorem extract_categories_mojibake :
    extract_categories_text "" = [""] ∧
    extract_categories_text "Cafe · Bakery · Coffee shop" =
      ["Cafe · Bakery · Coffee shop"] ∧
    extract_categories_text "Cafe Â· Bakery Â· Coffee shop" =
      ["Cafe", "Bakery", "Coffee shop"] ∧
    extract_categories_text "a Â·Â· b" = ["a", "", "b"] ∧
    ∀ text : String, extract_categories_text text ≠ [] := by
  refine ⟨by decide, by decide, by decide, by decide, ?_⟩
  intro text h
  have hne := pySplitSepAux_ne_nil catSeparator.data text.data.length text.data []
  simp only [extract_categories_text, pySplitSep, List.map_eq_nil_iff] at h
  exact hne h

/-- Claim C1 (witness for the amended theorem). -/
theorem extract_categories_mojibake_witness :
    extract_categories_text "Cafe" ≠ [] :=
  extract_categories_mojibake.2.2.2.2 "Cafe"

/-- Claim C2: evaluated at cap 40 with every scroll succeeding, the
pagination loop runs both budgeted iterations and publishes
`(0, 40)` twice — `completed` is the extracted-record count (always `0`
during pagination), not the discovered listing count, and the break
condition `len(results) >= max_results` can never fire.  In general every
published tick equals `(r, m)` for the entry record count `r`, and the
iteration count never exceeds the derived budget. -/
theorem scroll_phase_dead_break :
    scroll_phase (fun _ => true) (40 / 20) 0 40 = [(0, 40), (0, 40)] ∧
    (∀ (env : ℕ → Bool) (n r m : ℕ) (t : ℕ × ℕ),
      t ∈ scroll_phase env n r m → t = (r, m)) ∧
    (∀ (env : ℕ → Bool) (n r m : ℕ), (scroll_phase env n r m).length ≤ n) :=
  ⟨by decide, scroll_phase_mem, scroll_phase_len⟩

/-- Claim C2 (witness). -/
theorem scroll_phase_dead_break_witness :
    ((0, 40) ∈ scroll_phase (fun _ => true) 2 0 40) ∧ ((0, 40) : ℕ × ℕ) = (0, 40) :=
  ⟨by decide, scroll_phase_dead_break.2.1 (fun _ => true) 2 0 40 (0, 40) (by decide)⟩

/-- Claim C3: when every listing click succeeds, the iterating phase
appends one BusinessRecord per discovered listing up to the cap — the
extraction result even when extraction failed (`none`, the empty dict) —
and ticks the running record count; in the concrete 2-of-10 scenario the
session finishes `completed` with 10 records, 2 of them empty, and
`completed = 10`, `total = 10` in the final snapshot. -/
theorem iterate_appends_even_when_extraction_fails :
    (∀ (ls : List ListingEnv) (m : ℕ), (∀ l ∈ ls, l.clickOk = true) →
      (iterate_phase ls m).1 =
        (ls.take m).map (fun l => extract_business_details l.page l.panelLoads) ∧
      (iterate_phase ls m).2 =
        (List.range (ls.take m).length).map (fun i => (i + 1, m))) ∧
    scenarioResult.status = "completed" ∧
    scenarioResult.results.length = 10 ∧
    (scenarioResult.results.filter fun r => r.isNone).length = 2 ∧
    scenarioResult.completed = 10 ∧
    scenarioResult.total = 10 := by
  refine ⟨?_, by decide, by decide, by decide, by decide, by decide⟩
  intro ls m h
  have hall : ∀ l ∈ ls.take m, l.clickOk = true :=
    fun l hl => h l (List.take_subset m ls hl)
  have := iterate_go_all_click m (ls.take m) [] [] hall
  simp [iterate_phase, this]

/-- Claim C3 (witness). -/
theorem iterate_appends_witness :
    (∀ l ∈ scenarioListings, l.clickOk = true) ∧
    (iterate_phase scenarioListings 10).1 =
      (scenarioListings.take 10).map
        (fun l => extract_business_details l.page l.panelLoads) :=
  ⟨by decide,
    (iterate_appends_even_when_extraction_fails.1 scenarioListings 10 (by decide)).1⟩

/-- Claim C4: the coordinate parser maps the well-formed URL
`.../@37.422,-122.084,15z` to `(37.422, -122.084)`; it returns `none`
for every URL without an `@` marker (and conversely only succeeds when
one is present), and returns `none` on a non-numeric field and on fewer
than two comma fields — never raising, being a total function. -/
theorem extract_coordinates_spec :
    extract_coordinates wellUrl = some (18711 / 500, -30521 / 250) ∧
    (∀ url : String, url.data.contains '@' = false → extract_coordinates url = none) ∧
    (∀ (url : String) (p : ℚ × ℚ),
      extract_coordinates url = some p → url.data.contains '@' = true) ∧
    extract_coordinates "https://maps/@abc,-122.084,15z" = none ∧
    extract_coordinates "https://maps/@37.422" = none := by
  refine ⟨?_, ?_, ?_, ?_, ?_⟩
  · have h1 : wellUrl.data.contains '@' = true := by decide
    have h2 : pySplitSep wellUrl.data ['@'] =
        ["https://www.google.com/maps/place/X/".data, "37.422,-122.084,15z".data] := by
      decide
    have h3 : (pySplitSep "37.422,-122.084,15z".data [',']).take 2 =
        ["37.422".data, "-122.084".data] := by decide
    have h4 : pyFloatParts (String.mk "37.422".data) = some (37422, 1000) := by decide
    have h5 : pyFloatParts (String.mk "-122.084".data) = some (-122084, 1000) := by decide
    simp only [extract_coordinates, h1, if_true, h2, h3, pyFloat?, h4, h5, Option.map_some]
    norm_num
  · intro url h
    have hmem : ¬('@' ∈ url.data) := by simpa using h
    simp [extract_coordinates, hmem]
  · intro url p hp
    cases hc : url.data.contains '@' with
    | false =>
      have hmem : ¬('@' ∈ url.data) := by simpa using hc
      have hnone : extract_coordinates url = none := by
        simp [extract_coordinates, hmem]
      rw [hnone] at hp
      exact Option.noConfusion hp
    | true => rfl
  · have h1 : ("https://maps/@abc,-122.084,15z" : String).data.contains '@' = true := by decide
    have h2 : pySplitSep ("https://maps/@abc,-122.084,15z" : String).data ['@'] =
        ["https://maps/".data, "abc,-122.084,15z".data] := by decide
    have h3 : (pySplitSep "abc,-122.084,15z".data [',']).take 2 =
        ["abc".data, "-122.084".data] := by decide
    have h4 : pyFloatParts (String.mk "abc".data) = none := by decide
    simp [extract_coordinates, h1, h2, h3, pyFloat?, h4]
  · have h1 : ("https://maps/@37.422" : String).data.contains '@' = true := by decide
    have h2 : pySplitSep ("https://maps/@37.422" : String).data ['@'] =
        ["https://maps/".data, "37.422".data] := by decide
    have h3 : (pySplitSep "37.422".data [',']).take 2 = ["37.422".data] := by decide
    simp [extract_coordinates, h1, h2, h3]

/-- Claim C4 (witness). -/
theorem extract_coordinates_spec_witness :
    ("https://maps/nowhere".data.contains '@' = false) ∧
    extract_coordinates "https://maps/nowhere" = none :=
  ⟨by decide, extract_coordinates_spec.2.1 "https://maps/nowhere" (by decide)⟩

/-- Claim C5: the rating parser is a total function that takes the
first whitespace token of its input and parses it numerically,
returning the parse on success and `0.0` on empty input or parse
failure; `"4.5 stars"` yields `4.5`, `""` yields `0.0`, and the
database-layer copy agrees with it everywhere. -/
theorem parse_rating_spec :
    parse_rating "4.5 stars" = 9 / 2 ∧
    parse_rating "" = 0 ∧
    parse_rating "not a number" = 0 ∧
    (∀ s : String, pySplitWhite s = [] → parse_rating s = 0) ∧
    (∀ (s t : String) (rest : List String),
      pySplitWhite s = t :: rest → parse_rating s = (pyFloat? t).getD 0) ∧
    (∀ s : String, db_parse_rating s = parse_rating s) := by
  refine ⟨?_, ?_, ?_, ?_, ?_, ?_⟩
  · have h1 : pySplitWhite "4.5 stars" = ["4.5", "stars"] := by decide
    have h2 : pyFloatParts "4.5" = some (45, 10) := by decide
    simp only [parse_rating, h1, pyFloat?, h2, Option.map_some]
    norm_num
  · rfl
  · have h1 : pySplitWhite "not a number" = ["not", "a", "number"] := by decide
    have h2 : pyFloatParts "not" = none := by decide
    simp [parse_rating, h1, pyFloat?, h2]
  · intro s h
    simp [parse_rating, h]
  · intro s t rest h
    simp only [parse_rating, h]
    cases pyFloat? t <;> simp
  · intro s
    rfl

/-- Claim C5 (witness). -/
theorem parse_rating_spec_witness :
    pySplitWhite "7 reviews" = ["7", "reviews"] ∧
    parse_rating "7 reviews" = (pyFloat? "7").getD 0 :=
  ⟨by decide, parse_rating_spec.2.2.2.2.1 "7 reviews" "7" ["reviews"] (by decide)⟩

/-- Claim C6 (counterexample): on a page whose element at selector
`"a"` exists but carries no `"data-item-id"` attribute, the attribute
extractor returns Python `None` (`none`), which is neither the attribute
value as a string nor the empty string the claim requires. -/
theorem safe_extract_attribute_cx :
    cxDriver.find "a" = FindOutcome.found cxElement ∧
    safe_extract_attribute cxDriver "a" "data-item-id" = none ∧
    safe_extract_attribute cxDriver "a" "data-item-id" ≠ some "" := by
  refine ⟨by decide, by decide, by decide⟩

/-- Claim C6 (amended): the single-value extractors never propagate an
error; `extractText` returns the located element's trimmed text and
`""` on element-not-found, stale, or driver fault; `extractAttribute`
returns `""` on those faults, and on success forwards the driver's raw
attribute lookup, which is the attribute value when present but Python
`None` — not a string — when the located element lacks the attribute. -/
theorem safe_extract_defensive :
    (∀ (d : Driver) (sel : String) (e : Element),
      d.find sel = FindOutcome.found e → safe_extract_text d sel = pyStrip e.text) ∧
    (∀ (d : Driver) (sel : String),
      d.find sel = FindOutcome.notFound ∨ d.find sel = FindOutcome.stale ∨
        d.find sel = FindOutcome.fault →
      safe_extract_text d sel = "") ∧
    (∀ (d : Driver) (sel attr : String) (e : Element),
      d.find sel = FindOutcome.found e →
      safe_extract_attribute d sel attr = e.getAttr attr) ∧
    (∀ (d : Driver) (sel attr : String),
      d.find sel = FindOutcome.notFound ∨ d.find sel = FindOutcome.stale ∨
        d.find sel = FindOutcome.fault →
      safe_extract_attribute d sel attr = some "") ∧
    (∀ (e : Element) (attr : String),
      (∀ p ∈ e.attrs, p.1 ≠ attr) → e.getAttr attr = none) := by
  refine ⟨?_, ?_, ?_, ?_, ?_⟩
  · intro d sel e h; simp [safe_extract_text, h]
  · intro d sel h
    rcases h with h | h | h <;> simp [safe_extract_text, h]
  · intro d sel attr e h; simp [safe_extract_attribute, h]
  · intro d sel attr h
    rcases h with h | h | h <;> simp [safe_extract_attribute, h]
  · intro e attr h
    have hfind : (e.attrs.find? fun p => p.1 == attr) = none := by
      rw [List.find?_eq_none]
      intro p hp
      simpa using h p hp
    simp [Element.getAttr, hfind]

/-- Claim C6 (witness for the amended theorem). -/
theorem safe_extract_defensive_witness :
    trivialDriver.find "div.missing" = FindOutcome.notFound ∧
    safe_extract_text trivialDriver "div.missing" = "" :=
  ⟨rfl, safe_extract_defensive.2.1 trivialDriver "div.missing" (Or.inl rfl)⟩

/-- Claim C7: `start_scraping` rejects — leaving the registry
unchanged — whenever keywords or location is empty or the cap lies
outside 1..500, answering with the validation detail (re-wrapped by the
endpoint's blanket handler); when validation passes it stores exactly
one new session, created in status `"idle"`, and immediately answers
with the fresh identifier, consulting no scraping engine. -/
theorem start_scraping_validation :
    (∀ (store : List (String × Session)) (k l : String) (m : ℤ) (id : String),
      k = "" ∨ l = "" →
      start_scraping store k l m id =
        (store, Except.error (httpWrap 400 "Keywords and location are required"))) ∧
    (∀ (store : List (String × Session)) (k l : String) (m : ℤ) (id : String),
      k ≠ "" → l ≠ "" → m ≤ 0 ∨ 500 < m →
      start_scraping store k l m id =
        (store, Except.error (httpWrap 400 "Max results must be between 1 and 500"))) ∧
    (∀ (store : List (String × Session)) (k l : String) (m : ℤ) (id : String),
      k ≠ "" → l ≠ "" → 1 ≤ m → m ≤ 500 →
      start_scraping store k l m id =
        ((id, mkSession id k l m) :: store, Except.ok (id, "started"))) ∧
    (∀ (id k l : String) (m : ℤ), (mkSession id k l m).status = "idle") := by
  refine ⟨?_, ?_, ?_, ?_⟩
  · intro store k l m id h
    simp [start_scraping, h]
  · intro store k l m id hk hl h
    have hv : ¬(k = "" ∨ l = "") := by tauto
    simp [start_scraping, hv, h]
  · intro store k l m id hk hl h1 h2
    have hv : ¬(k = "" ∨ l = "") := by tauto
    have hm : ¬(m ≤ 0 ∨ 500 < m) := by omega
    simp [start_scraping, hv, hm]
  · intro id k l m
    rfl

/-- Claim C7 (witness): both `cap = 0` and `cap = 501` are rejected
with the registry unchanged, and a valid request stores an idle
session. -/
theorem start_scraping_validation_witness :
    ("cafe" ≠ "" ∧ "rome" ≠ "" ∧ ((0 : ℤ) ≤ 0 ∨ (500 : ℤ) < 0)) ∧
    start_scraping [] "cafe" "rome" 0 "id1" =
      ([], Except.error (httpWrap 400 "Max results must be between 1 and 500")) ∧
    start_scraping [] "cafe" "rome" 501 "id2" =
      ([], Except.error (httpWrap 400 "Max results must be between 1 and 500")) ∧
    start_scraping [] "cafe" "rome" 10 "id3" =
      ([("id3", mkSession "id3" "cafe" "rome" 10)], Except.ok ("id3", "started")) :=
  ⟨⟨by decide, by decide, by omega⟩,
    start_scraping_validation.2.1 [] "cafe" "rome" 0 "id1" (by decide) (by decide)
      (by omega),
    start_scraping_validation.2.1 [] "cafe" "rome" 501 "id2" (by decide) (by decide)
      (by omega),
    start_scraping_validation.2.2.1 [] "cafe" "rome" 10 "id3" (by decide) (by decide)
      (by omega) (by omega)⟩

/-- Claim C8: `get_results` answers 404 `NotFound` for an unknown
session id, 400 `NotReady` while the session's status is anything other
than `"completed"`, and the session's records exactly when the status is
`"completed"`. -/
theorem get_results_gating :
    (∀ (store : List (String × Session)) (sid : String),
      lookupSession store sid = none →
      get_results store sid = Except.error (404, "Session not found")) ∧
    (∀ (store : List (String × Session)) (sid : String) (s : Session),
      lookupSession store sid = some s → s.status ≠ "completed" →
      get_results store sid = Except.error (400, "Scraping not completed yet")) ∧
    (∀ (store : List (String × Session)) (sid : String) (s : Session),
      lookupSession store sid = some s → s.status = "completed" →
      get_results store sid =
        Except.ok (sid, s.keywords, s.location, s.results.length, s.results)) := by
  refine ⟨?_, ?_, ?_⟩
  · intro store sid h
    simp [get_results, h]
  · intro store sid s h hs
    simp [get_results, h, hs]
  · intro store sid s h hs
    simp [get_results, h, hs]

/-- Claim C8 (witness): unknown id, idle session, and completed session
against the concrete registry. -/
theorem get_results_gating_witness :
    (lookupSession testStore3 "zzz" = none ∧
      lookupSession testStore3 "i1" = some idleSession ∧
      idleSession.status ≠ "completed" ∧
      lookupSession testStore3 "e2" = some oneRecSession ∧
      oneRecSession.status = "completed") ∧
    get_results testStore3 "zzz" = Except.error (404, "Session not found") ∧
    get_results testStore3 "i1" = Except.error (400, "Scraping not completed yet") ∧
    get_results testStore3 "e2" =
      Except.ok ("e2", oneRecSession.keywords, oneRecSession.location,
        oneRecSession.results.length, oneRecSession.results) :=
  ⟨⟨rfl, rfl, by decide, rfl, rfl⟩,
    get_results_gating.1 testStore3 "zzz" rfl,
    get_results_gating.2.1 testStore3 "i1" idleSession rfl (by decide),
    get_results_gating.2.2 testStore3 "e2" oneRecSession rfl rfl⟩

/-- Claim C9: for every engine environment and cap, the status sequence
written by a run is `idle → running → completed` or
`idle → running → error`; along it the state-machine rank never
decreases, and once a terminal status is reached no later point of the
run shows a different status. -/
theorem status_monotone :
    ∀ (e : Engine) (m : ℕ),
      (runStatusTrace e m = ["idle", "running", "completed"] ∨
        runStatusTrace e m = ["idle", "running", "error"]) ∧
      (∀ i j : ℕ, i ≤ j → j < 3 →
        statusRank ((runStatusTrace e m).getD i "idle") ≤
          statusRank ((runStatusTrace e m).getD j "idle")) ∧
      (∀ i j : ℕ, i ≤ j → j < 3 →
        isTerminalStatus ((runStatusTrace e m).getD i "idle") →
        (runStatusTrace e m).getD j "idle" = (runStatusTrace e m).getD i "idle") := by
  intro e m
  have htr : runStatusTrace e m = ["idle", "running", "completed"] ∨
      runStatusTrace e m = ["idle", "running", "error"] := by
    cases h : scrape_sync e m with
    | ok p => left; simp [runStatusTrace, finalStatus, h]
    | error msg => right; simp [runStatusTrace, finalStatus, h]
  refine ⟨htr, ?_, ?_⟩
  · intro i j hij hj3
    rcases htr with h | h <;> rw [h] <;>
      interval_cases j <;> interval_cases i <;> simp [statusRank]
  · intro i j hij hj3 hterm
    rcases htr with h | h <;> rw [h] <;> rw [h] at hterm <;>
      interval_cases j <;> interval_cases i <;>
        simp_all [isTerminalStatus, statusRank]

/-- Claim C9 (witness). -/
theorem status_monotone_witness :
    ((1 : ℕ) ≤ 2 ∧ (2 : ℕ) < 3) ∧
    statusRank ((runStatusTrace scenarioEngine 10).getD 1 "idle") ≤
      statusRank ((runStatusTrace scenarioEngine 10).getD 2 "idle") :=
  ⟨⟨by omega, by omega⟩,
    (status_monotone scenarioEngine 10).2.1 1 2 (by omega) (by omega)⟩

/-- Claim C10: for a completed session with an empty record collection,
both download endpoints fail with the `"No results to download"` error
while `get_results` succeeds on the same session with the empty list;
with at least one record both downloads succeed. -/
theorem download_empty_results_gating :
    ∀ (store : List (String × Session)) (sid : String) (s : Session),
      lookupSession store sid = some s → s.status = "completed" →
      (s.results = [] →
        download_csv store sid = Except.error (400, "No results to download") ∧
        download_json store sid = Except.error (400, "No results to download") ∧
        get_results store sid = Except.ok (sid, s.keywords, s.location, 0, [])) ∧
      (s.results ≠ [] →
        download_csv store sid =
          Except.ok ("google_maps_data_" ++ s.keywords ++ "_" ++ s.location ++ ".csv") ∧
        download_json store sid =
          Except.ok ("google_maps_data_" ++ s.keywords ++ "_" ++ s.location ++ ".json")) := by
  intro store sid s hl hs
  constructor
  · intro he
    refine ⟨?_, ?_, ?_⟩
    · simp [download_csv, hl, hs, he]
    · simp [download_json, hl, hs, he]
    · simp [get_results, hl, hs, he]
  · intro hne
    constructor
    · simp [download_csv, hl, hs, hne]
    · simp [download_json, hl, hs, hne]

/-- Claim C10 (witness): the empty completed session is refused by the
CSV download though `get_results` succeeds, and the one-record session
is served. -/
theorem download_empty_results_gating_witness :
    (lookupSession testStore3 "e1" = some emptyDoneSession ∧
      emptyDoneSession.status = "completed" ∧ emptyDoneSession.results = []) ∧
    download_csv testStore3 "e1" = Except.error (400, "No results to download") ∧
    get_results testStore3 "e1" =
      Except.ok ("e1", emptyDoneSession.keywords, emptyDoneSession.location, 0, []) ∧
    download_csv testStore3 "e2" =
      Except.ok ("google_maps_data_" ++ oneRecSession.keywords ++ "_" ++
        oneRecSession.location ++ ".csv") :=
  ⟨⟨rfl, rfl, rfl⟩,
    ((download_empty_results_gating testStore3 "e1" emptyDoneSession rfl rfl).1 rfl).1,
    ((download_empty_results_gating testStore3 "e1" emptyDoneSession rfl rfl).1 rfl).2.2,
    ((download_empty_results_gating testStore3 "e2" oneRecSession rfl rfl).2
      (by decide)).1⟩
